import Mathlib

/-!
Verification of the LLDB quaternion pretty-printer
(`src/data/lldb/quaternion.py`) against its specification.

The printer exposes a quaternion value of the inspected process as four
named children (w, i, j, k) and renders a one-line polynomial summary.
We shallow-embed the debugger's reflection objects (`SBValue`) and the
Python code operating on them; Python exceptions become explicit
`Option`/`Except` values, and the float components become rationals.
-/

set_option maxHeartbeats 1000000

namespace AlloyLLDB

/-- Model of an LLDB `SBValue`: a named node carrying an optional displayed
value string, opaque data and type identifiers (standing for the underlying
memory buffer and `SBType`), and a list of structural children.  An invalid
`SBValue` (as returned by a failed member lookup) is modelled by
`SBValue.invalid` below. -/
inductive SBValue : Type where
  | mk (name : String) (value : Option String) (dataId : Nat) (typeId : Nat)
      (children : List SBValue)

def SBValue.name : SBValue → String
  | .mk n _ _ _ _ => n

def SBValue.value : SBValue → Option String
  | .mk _ v _ _ _ => v

def SBValue.dataId : SBValue → Nat
  | .mk _ _ d _ _ => d

def SBValue.typeId : SBValue → Nat
  | .mk _ _ _ t _ => t

def SBValue.children : SBValue → List SBValue
  | .mk _ _ _ _ c => c

/-- The invalid `SBValue`: what LLDB hands back when a member lookup fails.
Its displayed value is `None` and it has no children. -/
def SBValue.invalid : SBValue := .mk "" none 0 0 []

/-- `SBValue.GetChildMemberWithName`: the first child with the given name,
or the invalid value when absent.  This LLDB call never raises. -/
def SBValue.GetChildMemberWithName (v : SBValue) (n : String) : SBValue :=
  match v.children.find? (fun c => c.name == n) with
  | some c => c
  | none => SBValue.invalid

/-- `SBValue.GetValue`: the displayed value string, `None` when unavailable
(in particular on the invalid value). -/
def SBValue.GetValue (v : SBValue) : Option String := v.value

/-- `SBValue.GetData`: the underlying memory buffer, as an opaque id. -/
def SBValue.GetData (v : SBValue) : Nat := v.dataId

/-- `SBValue.GetType`: the declared type, as an opaque id. -/
def SBValue.GetType (v : SBValue) : Nat := v.typeId

/-- `SBValue.GetNonSyntheticValue`: our model carries only the underlying
(non-synthetic) value, so this is the identity. -/
def SBValue.GetNonSyntheticValue (v : SBValue) : SBValue := v

/-- `SBValue.CreateValueFromData(name, data, type)`: a fresh value labeled
`name` over the same data buffer and type.  The displayed value of the
fresh node derives from the (opaque) data, so it is left unmodelled. -/
def SBValue.CreateValueFromData (v : SBValue) (n : String) (d : Nat) (t : Nat) :
    SBValue :=
  let _ := v
  SBValue.mk n none d t []

/-- State of the synthetic child provider `Quaternion`: the bound value
object and the four component sub-references. -/
structure Quaternion where
  valobj : SBValue
  w : SBValue
  i : SBValue
  j : SBValue
  k : SBValue

/-- `Quaternion.update`: rebinds the four components from the first
structural member `"0"` of the value object.  Note the swizzle: the exposed
`w` reads the sub-field `"x"`, `i` reads `"y"`, `j` reads `"z"` and `k`
reads the sub-field `"w"`. -/
def Quaternion.update (q : Quaternion) : Quaternion :=
  let vec := q.valobj.GetChildMemberWithName "0"
  { q with
    w := vec.GetChildMemberWithName "x"
    i := vec.GetChildMemberWithName "y"
    j := vec.GetChildMemberWithName "z"
    k := vec.GetChildMemberWithName "w" }

/-- `Quaternion.__init__`: stores the value object and calls `update`. -/
def Quaternion.init (valobj : SBValue) : Quaternion :=
  Quaternion.update
    { valobj := valobj, w := SBValue.invalid, i := SBValue.invalid,
      j := SBValue.invalid, k := SBValue.invalid }

/-- `Quaternion.num_children`: always 4. -/
def Quaternion.num_children (q : Quaternion) : Nat :=
  let _ := q
  4

/-- `Quaternion.get_child_at_index`: `None` outside `[0,4)`, otherwise a
fresh value labeled w/i/j/k over the component's data and type.  The
`try/except` around the body is defensive: the modelled LLDB calls return
error values rather than raising, so the `except` arm is unreachable. -/
def Quaternion.get_child_at_index (q : Quaternion) (index : Int) :
    Option SBValue :=
  if index < 0 ∨ 4 ≤ index then none
  else if index = 0 then
    some (q.w.CreateValueFromData "w" q.w.GetData q.w.GetType)
  else if index = 1 then
    some (q.i.CreateValueFromData "i" q.i.GetData q.i.GetType)
  else if index = 2 then
    some (q.j.CreateValueFromData "j" q.j.GetData q.j.GetType)
  else if index = 3 then
    some (q.k.CreateValueFromData "k" q.k.GetData q.k.GetType)
  else none

/-- `Quaternion.get_child_index`: w/i/j/k map to 0..3, anything else to the
sentinel -1. -/
def Quaternion.get_child_index (q : Quaternion) (n : String) : Int :=
  let _ := q
  if n = "w" then 0
  else if n = "i" then 1
  else if n = "j" then 2
  else if n = "k" then 3
  else -1

/-- Value of a list of decimal digit characters. -/
def digitsToNat (cs : List Char) : Nat :=
  cs.foldl (fun n c => n * 10 + (c.toNat - 48)) 0

/-- Python `float(s)` on a string, restricted to the plain decimal forms the
printer encounters: optional sign, integer digits, optional fractional
part.  Unparsable strings yield `none` (Python raises `ValueError`).
Exponent notation and the special forms inf/nan are not modelled; no claim
exercises them. -/
def pyFloat (s : String) : Option ℚ :=
  let sb : Bool × List Char :=
    match s.data with
    | '-' :: rest => (true, rest)
    | '+' :: rest => (false, rest)
    | cs => (false, cs)
  let signed : ℚ → ℚ := fun x => if sb.1 then -x else x
  let intPart := sb.2.takeWhile Char.isDigit
  let rest := sb.2.dropWhile Char.isDigit
  match rest with
  | [] =>
      if intPart.isEmpty then none
      else some (signed (digitsToNat intPart : ℚ))
  | '.' :: frac =>
      if frac.all Char.isDigit && !(intPart.isEmpty && frac.isEmpty) then
        some (signed ((digitsToNat intPart : ℚ) +
          (digitsToNat frac : ℚ) / ((10 : ℚ) ^ frac.length)))
      else none
  | _ => none

/-- Python `float(x)` applied to the result of `GetValue`: `float(None)`
raises `TypeError`, so `none` propagates. -/
def pyFloatOfOpt : Option String → Option ℚ
  | none => none
  | some s => pyFloat s

/-- Python `str()` of a float, as used by the f-string `f"{abs(v)}"`: an
integral float `n.0` renders as `"n.0"`.  The non-integral branch is not
exercised by any claim and Python's shortest-roundtrip rendering is not
modelled there; we keep the function total with an exact `num/den` form. -/
def pyFloatStr (v : ℚ) : String :=
  if v.den = 1 then toString v.num ++ ".0"
  else toString v.num ++ ("/" ++ toString v.den)

/-- One iteration of the summary loop (lines 56-69 of the source): skip a
zero term, otherwise append separator space, sign, and
`f"{space}{abs(v)}{name}"`. -/
def renderStep (r : String) (t : ℚ × String) : String :=
  if t.1 = 0 then r
  else
    let space := if r = "" then "" else " "
    let r1 :=
      if t.1 < 0 then r ++ space ++ "-"
      else if r ≠ "" then r ++ space ++ "+"
      else r
    r1 ++ space ++ pyFloatStr |t.1| ++ t.2

/-- The summary loop body without the zero-term skip; used to state that
the loop is the zero-filtered rendering. -/
def renderStepNZ (r : String) (t : ℚ × String) : String :=
  let space := if r = "" then "" else " "
  let r1 :=
    if t.1 < 0 then r ++ space ++ "-"
    else if r ≠ "" then r ++ space ++ "+"
    else r
  r1 ++ space ++ pyFloatStr |t.1| ++ t.2

/-- Rendering of a term list by the loop of `quaternion_summary`. -/
def renderTerms (ts : List (ℚ × String)) : String :=
  ts.foldl renderStep ""

/-- Rendering of an (already zero-free) term list. -/
def renderTermsNZ (ts : List (ℚ × String)) : String :=
  ts.foldl renderStepNZ ""

/-- The four (value, suffix) pairs of the summary, in loop order. -/
def quatTerms (w i j k : ℚ) : List (ℚ × String) :=
  [(w, ""), (i, "i"), (j, "j"), (k, "k")]

/-- The polynomial rendering of four successfully-read components
(lines 56-74 of the source): run the loop, and substitute `"0"` when every
term was skipped. -/
def quaternionRender (w i j k : ℚ) : String :=
  let result := renderTerms (quatTerms w i j k)
  if result = "" then "0" else result

/-- Component extraction and float conversion of `quaternion_summary`
(lines 49-55): bind a `Quaternion` to the non-synthetic value and convert
the four displayed values sequentially; any failure is `none` (a raised
`TypeError`/`ValueError` in Python). -/
def readComponents (valobj : SBValue) : Option (ℚ × ℚ × ℚ × ℚ) :=
  let q := Quaternion.init valobj.GetNonSyntheticValue
  match pyFloatOfOpt q.w.GetValue, pyFloatOfOpt q.i.GetValue,
      pyFloatOfOpt q.j.GetValue, pyFloatOfOpt q.k.GetValue with
  | some w, some i, some j, some k => some (w, i, j, k)
  | _, _, _, _ => none

/-- The body of `quaternion_summary` inside the `try`: a raised exception
surfaces as `Except.error`. -/
def quaternion_summary_body (valobj : SBValue) : Except String String :=
  match readComponents valobj with
  | some (w, i, j, k) => Except.ok (quaternionRender w i j k)
  | none => Except.error "component conversion failed"

/-- `quaternion_summary`: the body under the `try`, with every exception
caught and replaced by the fixed placeholder. -/
def quaternion_summary (valobj : SBValue) : String :=
  match quaternion_summary_body valobj with
  | .ok s => s
  | .error _ => "Quaternion(err)"

/-- Selector for the component sub-reference bound to a child index. -/
def componentOf (q : Quaternion) (index : Int) : SBValue :=
  if index = 0 then q.w
  else if index = 1 then q.i
  else if index = 2 then q.j
  else q.k

/-- The child labels in index order. -/
def childLabels : List String := ["w", "i", "j", "k"]

/-- How the first emitted summary term reads: a leading `"-"` exactly when
negative (never a `"+"`), then the absolute value and suffix. -/
def firstTermStr (t : ℚ × String) : String :=
  (if t.1 < 0 then "-" else "") ++ pyFloatStr |t.1| ++ t.2

/-- How every later summary term reads: a separating space, the sign,
another space, then the absolute value and suffix. -/
def laterTermStr (t : ℚ × String) : String :=
  " " ++ (if t.1 < 0 then "-" else "+") ++ (" " ++ pyFloatStr |t.1| ++ t.2)

/-- A concrete well-formed quaternion value object whose four stored fields
x/y/z/w display the given strings. -/
def mkQuatVal (xs ys zs ws : String) : SBValue :=
  .mk "q" none 1 100
    [.mk "0" none 2 101
      [.mk "x" (some xs) 10 200 [],
       .mk "y" (some ys) 11 200 [],
       .mk "z" (some zs) 12 200 [],
       .mk "w" (some ws) 13 200 []]]

/-- Concatenation of the later-term renderings; the shape every term after
the first takes in the summary string. -/
def laterTermsStr : List (ℚ × String) → String
  | [] => ""
  | t :: ts => laterTermStr t ++ laterTermsStr ts

theorem ne_empty_of_length_pos {s : String} (h : 0 < s.length) : s ≠ "" := by
  intro he
  rw [he, String.length_empty] at h
  exact Nat.lt_irrefl 0 h

theorem pyFloatStr_length_pos (v : ℚ) : 0 < (pyFloatStr v).length := by
  have l1 : (".0" : String).length = 2 := rfl
  have l2 : ("/" : String).length = 1 := rfl
  unfold pyFloatStr
  by_cases h : v.den = 1 <;>
    simp only [h, if_true, if_false, String.length_append, l1, l2] <;> omega

theorem renderStepNZ_length_lt (r : String) (t : ℚ × String) :
    r.length < (renderStepNZ r t).length := by
  have hp := pyFloatStr_length_pos |t.1|
  have l1 : ("-" : String).length = 1 := rfl
  have l2 : ("+" : String).length = 1 := rfl
  have l3 : (" " : String).length = 1 := rfl
  have l4 : ("" : String).length = 0 := rfl
  unfold renderStepNZ
  by_cases h0 : r = "" <;> by_cases hn : t.1 < 0 <;>
    simp only [h0, hn, if_true, if_false, ne_eq, not_true_eq_false, not_false_eq_true,
      ite_true, ite_false, String.length_append, l1, l2, l3, l4] <;> omega

theorem foldl_renderStepNZ_length (ts : List (ℚ × String)) (r : String) :
    r.length ≤ (ts.foldl renderStepNZ r).length := by
  induction ts generalizing r with
  | nil => simp
  | cons t ts ih =>
      calc r.length ≤ (renderStepNZ r t).length := le_of_lt (renderStepNZ_length_lt r t)
        _ ≤ _ := ih _

theorem renderTermsNZ_cons_ne_empty (t : ℚ × String) (ts : List (ℚ × String)) :
    renderTermsNZ (t :: ts) ≠ "" := by
  apply ne_empty_of_length_pos
  have h1 := renderStepNZ_length_lt "" t
  have h2 := foldl_renderStepNZ_length ts (renderStepNZ "" t)
  have l4 : ("" : String).length = 0 := rfl
  unfold renderTermsNZ
  rw [List.foldl_cons]
  omega

theorem renderStep_eq_NZ (r : String) (t : ℚ × String) :
    renderStep r t = if t.1 = 0 then r else renderStepNZ r t := rfl

theorem foldl_renderStep_filter (ts : List (ℚ × String)) (r : String) :
    ts.foldl renderStep r =
      (ts.filter (fun t => decide (t.1 ≠ 0))).foldl renderStepNZ r := by
  induction ts generalizing r with
  | nil => rfl
  | cons t ts ih =>
      by_cases h : t.1 = 0 <;>
        simp [List.foldl_cons, List.filter_cons, h, renderStep_eq_NZ, ih]

theorem renderStepNZ_of_ne_empty {r : String} (h : r ≠ "") (t : ℚ × String) :
    renderStepNZ r t = r ++ laterTermStr t := by
  unfold renderStepNZ laterTermStr
  by_cases hn : t.1 < 0 <;> simp [h, hn, String.append_assoc] <;> rfl

theorem renderStepNZ_empty_eq (t : ℚ × String) :
    renderStepNZ "" t = firstTermStr t := by
  unfold renderStepNZ firstTermStr
  by_cases hn : t.1 < 0 <;> simp [hn, String.append_assoc]

theorem foldl_renderStepNZ_append (ts : List (ℚ × String)) :
    ∀ r : String, r ≠ "" →
      ts.foldl renderStepNZ r = r ++ laterTermsStr ts := by
  induction ts with
  | nil => intro r _; simp [laterTermsStr]
  | cons t ts ih =>
      intro r hr
      have h1 : renderStepNZ r t ≠ "" := by
        apply ne_empty_of_length_pos
        have := renderStepNZ_length_lt r t
        omega
      rw [List.foldl_cons, ih _ h1, renderStepNZ_of_ne_empty hr, laterTermsStr,
        String.append_assoc]


theorem firstTermStr_length_pos (t : ℚ × String) : 0 < (firstTermStr t).length := by
  have hp := pyFloatStr_length_pos |t.1|
  have l1 : ("-" : String).length = 1 := rfl
  have l4 : ("" : String).length = 0 := rfl
  unfold firstTermStr
  by_cases hn : t.1 < 0 <;>
    simp only [hn, if_true, if_false, ite_true, ite_false, String.length_append,
      l1, l4] <;> omega

theorem summary_of_readComponents {v : SBValue} {w i j k : ℚ}
    (h : readComponents v = some (w, i, j, k)) :
    quaternion_summary v = quaternionRender w i j k := by
  unfold quaternion_summary quaternion_summary_body
  rw [h]

theorem readComponents_some_iff (v : SBValue) (w i j k : ℚ) :
    readComponents v = some (w, i, j, k) ↔
      pyFloatOfOpt (Quaternion.init v.GetNonSyntheticValue).w.GetValue = some w ∧
      pyFloatOfOpt (Quaternion.init v.GetNonSyntheticValue).i.GetValue = some i ∧
      pyFloatOfOpt (Quaternion.init v.GetNonSyntheticValue).j.GetValue = some j ∧
      pyFloatOfOpt (Quaternion.init v.GetNonSyntheticValue).k.GetValue = some k := by
  unfold readComponents
  rcases h1 : pyFloatOfOpt (Quaternion.init v.GetNonSyntheticValue).w.GetValue with _ | a <;>
    rcases h2 : pyFloatOfOpt (Quaternion.init v.GetNonSyntheticValue).i.GetValue with _ | b <;>
      rcases h3 : pyFloatOfOpt (Quaternion.init v.GetNonSyntheticValue).j.GetValue with _ | c <;>
        rcases h4 : pyFloatOfOpt (Quaternion.init v.GetNonSyntheticValue).k.GetValue with _ | d <;>
          simp [h1, h2, h3, h4, and_assoc, eq_comm]

/-- Claim C1: if component extraction or numeric parsing fails at any step, the
summary is the fixed placeholder "Quaternion(err)"; the exception never
escapes: the result is otherwise exactly the rendered polynomial. -/
theorem summary_failure_placeholder (v : SBValue) :
    (readComponents v = none → quaternion_summary v = "Quaternion(err)") ∧
    (quaternion_summary v = "Quaternion(err)" ∨
      ∃ w i j k : ℚ, readComponents v = some (w, i, j, k) ∧
        quaternion_summary v = quaternionRender w i j k) := by
  constructor
  · intro h
    unfold quaternion_summary quaternion_summary_body
    rw [h]
  · rcases hrc : readComponents v with _ | ⟨w, i, j, k⟩
    · left
      unfold quaternion_summary quaternion_summary_body
      rw [hrc]
    · right
      exact ⟨w, i, j, k, rfl, summary_of_readComponents hrc⟩

theorem summary_failure_placeholder_witness :
    quaternion_summary (SBValue.mk "q" none 0 0 []) = "Quaternion(err)" :=
  (summary_failure_placeholder (SBValue.mk "q" none 0 0 [])).1 (by decide)

/-- Claim C2: when the four components read successfully the summary renders only
the nonzero terms, and the all-zero quaternion renders as "0". -/
theorem summary_omits_zero_terms (v : SBValue) (w i j k : ℚ)
    (h : readComponents v = some (w, i, j, k)) :
    quaternion_summary v =
      (if (quatTerms w i j k).filter (fun t => decide (t.1 ≠ 0)) = [] then "0"
       else renderTermsNZ ((quatTerms w i j k).filter (fun t => decide (t.1 ≠ 0)))) := by
  rw [summary_of_readComponents h]
  unfold quaternionRender renderTerms
  rw [foldl_renderStep_filter]
  rcases hf : (quatTerms w i j k).filter (fun t => decide (t.1 ≠ 0)) with _ | ⟨t, ts⟩
  · simp only [hf]
    rfl
  · have hne := renderTermsNZ_cons_ne_empty t ts
    unfold renderTermsNZ at hne
    simp only [hf]
    rw [if_neg hne, if_neg (List.cons_ne_nil t ts)]
    rfl

theorem summary_omits_zero_terms_witness :
    quaternion_summary (mkQuatVal "0" "0" "0" "0") =
      (if (quatTerms 0 0 0 0).filter (fun t => decide (t.1 ≠ 0)) = [] then "0"
       else renderTermsNZ ((quatTerms 0 0 0 0).filter (fun t => decide (t.1 ≠ 0)))) :=
  summary_omits_zero_terms (mkQuatVal "0" "0" "0" "0") 0 0 0 0 (by decide)

/-- Claim C3 counterexample: on the value whose components read (1,0,0,0) the
summary is not the spec's "1". -/
theorem summary_example_counterexample :
    quaternion_summary (mkQuatVal "1" "0" "0" "0") ≠ "1" := by decide

/-- Claim C3 as amended: Python renders the float magnitudes with a trailing ".0"
and separates each later term's sign from its magnitude by a space, so the
spec's examples read "1.0", "-2.0i" and "1.0 + 2.0i - 3.0k". -/
theorem summary_examples_amended :
    quaternionRender 1 0 0 0 = "1.0" ∧
    quaternionRender 0 (-2) 0 0 = "-2.0i" ∧
    quaternionRender 1 2 0 (-3) = "1.0 + 2.0i - 3.0k" ∧
    quaternion_summary (mkQuatVal "1" "0" "0" "0") = "1.0" ∧
    quaternion_summary (mkQuatVal "0" "-2" "0" "0") = "-2.0i" ∧
    quaternion_summary (mkQuatVal "1" "2" "0" "-3") = "1.0 + 2.0i - 3.0k" :=
  ⟨by decide, by decide, by decide, by decide, by decide, by decide⟩

/-- Claim C4: with at least one nonzero component, the summary is the first
nonzero term (leading "-" exactly when negative, never "+") followed by
the later nonzero terms, each as space, sign, space, magnitude, suffix. -/
theorem summary_term_format (v : SBValue) (w i j k : ℚ)
    (t : ℚ × String) (rest : List (ℚ × String))
    (h : readComponents v = some (w, i, j, k))
    (hf : (quatTerms w i j k).filter (fun s => decide (s.1 ≠ 0)) = t :: rest) :
    quaternion_summary v = firstTermStr t ++ laterTermsStr rest := by
  rw [summary_of_readComponents h]
  unfold quaternionRender renderTerms
  rw [foldl_renderStep_filter]
  simp only [hf]
  have hfi : renderStepNZ "" t ≠ "" := by
    apply ne_empty_of_length_pos
    have := renderStepNZ_length_lt "" t
    omega
  have h1 : (t :: rest).foldl renderStepNZ "" = firstTermStr t ++ laterTermsStr rest := by
    rw [List.foldl_cons, foldl_renderStepNZ_append rest _ hfi, renderStepNZ_empty_eq]
  have hne := renderTermsNZ_cons_ne_empty t rest
  unfold renderTermsNZ at hne
  rw [if_neg hne, h1]

theorem summary_term_format_witness :
    quaternion_summary (mkQuatVal "1" "2" "0" "-3") =
      firstTermStr (1, "") ++ laterTermsStr [(2, "i"), (-3, "k")] :=
  summary_term_format (mkQuatVal "1" "2" "0" "-3") 1 2 0 (-3) (1, "")
    [(2, "i"), (-3, "k")] (by decide) (by decide)

/-- Claim C5: the child count is 4 for every inspector state. -/
theorem num_children_eq_four (q : Quaternion) : q.num_children = 4 := rfl

/-- Claim C6: for an index in [0,4) the child is a fresh value labeled w/i/j/k
over the corresponding component's data and type; outside [0,4) the
result is absent, with no failure. -/
theorem get_child_at_index_spec (q : Quaternion) (index : Int) :
    (0 ≤ index ∧ index < 4 →
      ∃ c, q.get_child_at_index index = some c ∧
        c.name = childLabels.getD index.toNat "" ∧
        c.dataId = (componentOf q index).dataId ∧
        c.typeId = (componentOf q index).typeId) ∧
    ((index < 0 ∨ 4 ≤ index) → q.get_child_at_index index = none) := by
  constructor
  · rintro ⟨h0, h4⟩
    have hi : index = 0 ∨ index = 1 ∨ index = 2 ∨ index = 3 := by omega
    rcases hi with hi | hi | hi | hi <;> subst hi
    · exact ⟨_, rfl, rfl, rfl, rfl⟩
    · exact ⟨_, rfl, rfl, rfl, rfl⟩
    · exact ⟨_, rfl, rfl, rfl, rfl⟩
    · exact ⟨_, rfl, rfl, rfl, rfl⟩
  · intro h
    unfold Quaternion.get_child_at_index
    rw [if_pos h]

theorem get_child_at_index_spec_witness :
    (∃ c, (Quaternion.init (mkQuatVal "1" "0" "0" "0")).get_child_at_index 2 = some c ∧
      c.name = childLabels.getD (Int.toNat 2) "" ∧
      c.dataId = (componentOf (Quaternion.init (mkQuatVal "1" "0" "0" "0")) 2).dataId ∧
      c.typeId = (componentOf (Quaternion.init (mkQuatVal "1" "0" "0" "0")) 2).typeId) ∧
    (Quaternion.init (mkQuatVal "1" "0" "0" "0")).get_child_at_index 4 = none :=
  ⟨(get_child_at_index_spec (Quaternion.init (mkQuatVal "1" "0" "0" "0")) 2).1
      (by decide),
   (get_child_at_index_spec (Quaternion.init (mkQuatVal "1" "0" "0" "0")) 4).2
      (by decide)⟩

/-- Claim C7: the name-to-index map sends w/i/j/k to 0..3 and every other name
to the sentinel -1, never failing. -/
theorem get_child_index_spec (q : Quaternion) (n : String) :
    q.get_child_index "w" = 0 ∧ q.get_child_index "i" = 1 ∧
    q.get_child_index "j" = 2 ∧ q.get_child_index "k" = 3 ∧
    (n ≠ "w" → n ≠ "i" → n ≠ "j" → n ≠ "k" → q.get_child_index n = -1) := by
  refine ⟨rfl, rfl, rfl, rfl, ?_⟩
  intro h1 h2 h3 h4
  unfold Quaternion.get_child_index
  simp [h1, h2, h3, h4]

theorem get_child_index_spec_witness :
    (Quaternion.init (mkQuatVal "1" "0" "0" "0")).get_child_index "xyz" = -1 :=
  (get_child_index_spec (Quaternion.init (mkQuatVal "1" "0" "0" "0")) "xyz").2.2.2.2
    (by decide) (by decide) (by decide) (by decide)

/-- Claim C8: for every index in [0,4), looking the returned child's name back
up with get_child_index yields the index again. -/
theorem child_name_index_roundtrip (q : Quaternion) (index : Int)
    (h0 : 0 ≤ index) (h4 : index < 4) :
    ∃ c, q.get_child_at_index index = some c ∧
      q.get_child_index c.name = index := by
  have hi : index = 0 ∨ index = 1 ∨ index = 2 ∨ index = 3 := by omega
  rcases hi with hi | hi | hi | hi <;> subst hi
  · exact ⟨_, rfl, rfl⟩
  · exact ⟨_, rfl, rfl⟩
  · exact ⟨_, rfl, rfl⟩
  · exact ⟨_, rfl, rfl⟩

theorem child_name_index_roundtrip_witness :
    ∃ c, (Quaternion.init (mkQuatVal "1" "0" "0" "0")).get_child_at_index 1 = some c ∧
      (Quaternion.init (mkQuatVal "1" "0" "0" "0")).get_child_index c.name = 1 :=
  child_name_index_roundtrip (Quaternion.init (mkQuatVal "1" "0" "0" "0")) 1
    (by decide) (by decide)

/-- Claim C9: every public operation is total and lands in its documented range:
num_children is 4, get_child_at_index is some value in range and none out
of range, get_child_index is -1 or in [0,4), and the summary is the
rendered polynomial or the placeholder. -/
theorem public_ops_total (v : SBValue) (q : Quaternion) (index : Int) (n : String) :
    (Quaternion.init v).num_children = 4 ∧
    (0 ≤ index → index < 4 → (q.get_child_at_index index).isSome = true) ∧
    ((index < 0 ∨ 4 ≤ index) → q.get_child_at_index index = none) ∧
    (q.get_child_index n = -1 ∨
      (0 ≤ q.get_child_index n ∧ q.get_child_index n < 4)) ∧
    ((∃ s, quaternion_summary_body v = Except.ok s ∧ quaternion_summary v = s) ∨
      quaternion_summary v = "Quaternion(err)") := by
  refine ⟨rfl, ?_, ?_, ?_, ?_⟩
  · intro h0 h4
    have hi : index = 0 ∨ index = 1 ∨ index = 2 ∨ index = 3 := by omega
    rcases hi with hi | hi | hi | hi <;> subst hi <;> rfl
  · intro h
    unfold Quaternion.get_child_at_index
    rw [if_pos h]
  · unfold Quaternion.get_child_index
    by_cases h1 : n = "w"
    · simp [h1]
    · by_cases h2 : n = "i"
      · simp [h1, h2]
      · by_cases h3 : n = "j"
        · simp [h1, h2, h3]
        · by_cases h4 : n = "k"
          · simp [h1, h2, h3, h4]
          · simp [h1, h2, h3, h4]
  · rcases hb : quaternion_summary_body v with e | s
    · right
      unfold quaternion_summary
      rw [hb]
    · left
      refine ⟨s, rfl, ?_⟩
      unfold quaternion_summary
      rw [hb]

theorem public_ops_total_witness :
    ((Quaternion.init (mkQuatVal "1" "0" "0" "0")).get_child_at_index 1).isSome = true :=
  (public_ops_total (mkQuatVal "1" "0" "0" "0")
    (Quaternion.init (mkQuatVal "1" "0" "0" "0")) 1 "i").2.1 (by decide) (by decide)

/-- Claim C10: the binding swizzle: the exposed w/i/j/k components read the
underlying sub-fields x/y/z/w of the first structural member, so the child
labeled "k" shares the data of the field named "w", the child labeled "w"
shares the data of the field named "x", and the k coefficient of the
summary is parsed from the field named "w". -/
theorem component_binding_swizzle (v : SBValue) :
    ((Quaternion.init v).w =
      (v.GetChildMemberWithName "0").GetChildMemberWithName "x") ∧
    ((Quaternion.init v).i =
      (v.GetChildMemberWithName "0").GetChildMemberWithName "y") ∧
    ((Quaternion.init v).j =
      (v.GetChildMemberWithName "0").GetChildMemberWithName "z") ∧
    ((Quaternion.init v).k =
      (v.GetChildMemberWithName "0").GetChildMemberWithName "w") ∧
    (∃ c, (Quaternion.init v).get_child_at_index 0 = some c ∧ c.name = "w" ∧
      c.dataId = ((v.GetChildMemberWithName "0").GetChildMemberWithName "x").dataId) ∧
    (∃ c, (Quaternion.init v).get_child_at_index 3 = some c ∧ c.name = "k" ∧
      c.dataId = ((v.GetChildMemberWithName "0").GetChildMemberWithName "w").dataId) ∧
    (∀ w i j k : ℚ, readComponents v = some (w, i, j, k) →
      pyFloatOfOpt
          (((v.GetChildMemberWithName "0").GetChildMemberWithName "w").GetValue) =
        some k ∧
      quaternion_summary v = quaternionRender w i j k) := by
  refine ⟨rfl, rfl, rfl, rfl, ⟨_, rfl, rfl, rfl⟩, ⟨_, rfl, rfl, rfl⟩, ?_⟩
  intro w i j k h
  have hk := ((readComponents_some_iff v w i j k).mp h).2.2.2
  exact ⟨hk, summary_of_readComponents h⟩

theorem component_binding_swizzle_witness :
    pyFloatOfOpt
        ((((mkQuatVal "1" "2" "0" "-3").GetChildMemberWithName
          "0").GetChildMemberWithName "w").GetValue) = some (-3) ∧
    quaternion_summary (mkQuatVal "1" "2" "0" "-3") = quaternionRender 1 2 0 (-3) :=
  (component_binding_swizzle (mkQuatVal "1" "2" "0" "-3")).2.2.2.2.2.2 1 2 0 (-3)
    (by decide)

end AlloyLLDB
